import Mathlib

/-!
Verification development for the ICSSIM pcap analysis scripts.

The repository contains three near-duplicate Modbus/TCP request-response
correlators:

* `pcap_to_csv.py` (`parse_pcap`)                     — modelled in `PcapToCsv`
* `pcap_tools/pcap_to_csv.py` (`correlate_modbus`)    — modelled in `PcapTools`
* `pcap_analyzer.py` (`PCAPAnalyzer` and its
  `ModbusTCPAnalyzer`)                                — modelled in `PcapAnalyzer`

Python floats (capture timestamps, round-trip times) are modelled as exact
rationals.  Optional strings extracted from packet layers are `Option String`;
`none` plays the role of Python `None`.  Python dictionaries are modelled as
insertion-ordered association lists: assignment updates an existing key in
place (keeping its position, as CPython dicts do) and appends fresh keys.
-/

/-- Python `x or y` on optional strings: `None` and `""` are falsy. -/
def pyOr (a b : Option String) : Option String :=
  match a with
  | none => b
  | some s => if s = "" then b else some s

/-- Python `x or d` where the result is used as a plain string. -/
def pyOrD (a : Option String) (d : String) : String :=
  match a with
  | none => d
  | some s => if s = "" then d else s

/-- Python `str(x)` on an optional string (`str(None) = "None"`). -/
def pyStr : Option String → String
  | none => "None"
  | some s => s

/-- Python truthiness of an optional string. -/
def truthy : Option String → Bool
  | none => false
  | some s => if s = "" then false else true

/-- Dictionary lookup on an association list. -/
def alookup {α β : Type} [DecidableEq α] : List (α × β) → α → Option β
  | [], _ => none
  | (a, b) :: rest, k => if k = a then some b else alookup rest k

/-- Dictionary assignment: update in place, append if the key is fresh. -/
def ainsert {α β : Type} [DecidableEq α] : List (α × β) → α → β → List (α × β)
  | [], k, v => [(k, v)]
  | (a, b) :: rest, k, v =>
      if k = a then (a, v) :: rest else (a, b) :: ainsert rest k v

/-- Dictionary deletion (`dict.pop`). -/
def aerase {α β : Type} [DecidableEq α] : List (α × β) → α → List (α × β)
  | [], _ => []
  | (a, b) :: rest, k => if k = a then rest else (a, b) :: aerase rest k

/-- `collections.Counter` increment. -/
def incr {α : Type} [DecidableEq α] : List (α × ℕ) → α → List (α × ℕ)
  | [], k => [(k, 1)]
  | (a, n) :: rest, k =>
      if k = a then (a, n + 1) :: rest else (a, n) :: incr rest k

/-- Round half to even, the rounding mode of Python `round`.  The floor is
computed as `num / den` with Euclidean integer division, which floors since
denominators are positive. -/
def rhe (q : ℚ) : ℤ :=
  let f : ℤ := q.num / (q.den : ℤ)
  let frac : ℚ := q - (f : ℚ)
  if frac < 1 / 2 then f
  else if 1 / 2 < frac then f + 1
  else if f % 2 = 0 then f else f + 1

/-- Python `round(q, 3)` modelled over exact rationals. -/
def roundPy3 (q : ℚ) : ℚ := ((rhe (q * 1000) : ℤ) : ℚ) / 1000

/-- Character-list prefix test, used for substring search. -/
def listPre : List Char → List Char → Bool
  | [], _ => true
  | _ :: _, [] => false
  | a :: as, b :: bs => if a = b then listPre as bs else false

/-- Character-list substring test. -/
def listSub (n : List Char) : List Char → Bool
  | [] => n.isEmpty
  | b :: bs => listPre n (b :: bs) || listSub n bs

/-- Python `needle in hay` on strings. -/
def hasSub (hay needle : String) : Bool := listSub needle.toList hay.toList

namespace PcapToCsv

/-- Transport-layer tag of a frame (`tcp` / `udp` layer present). -/
inductive L4
  | tcp
  | udp
deriving DecidableEq, Repr

/-- One decoded packet as seen by `parse_pcap` after field extraction
(`get_layer` / `get_field_values` / `extract_modbus_fields` in
`pcap_to_csv.py`).  Each field is the extracted string, `none` when the
layer or field is absent; `time_epoch` is the parsed capture timestamp. -/
structure Frame where
  frame_no : Option String
  time_epoch : Option ℚ
  highest_layer : Option String
  hasIp : Bool
  src_ip : Option String
  dst_ip : Option String
  l4 : Option L4
  src_port : Option String
  dst_port : Option String
  dns_qr : Option String
  mdns_service : Option String
  tid : Option String
  proto_id : Option String
  mb_length : Option String
  unit_id : Option String
  func_code : Option String
  reference : Option String
  word_cnt : Option String
  byte_cnt : Option String
  exception : Option String
  values : Option String
deriving DecidableEq, Repr

/-- The `Stats` class of `pcap_to_csv.py`: the complete set of run counters. -/
structure Stats where
  total_packets : ℕ
  l4_counter : List (String × ℕ)
  highest_counter : List (String × ℕ)
  ip_talkers : List (String × ℕ)
  ip_pairs : List (String × ℕ)
  modbus_func_counter : List (String × ℕ)
  modbus_rtts : List ℚ
  modbus_exceptions : ℕ
  mdns_queries : ℕ
  mdns_responses : ℕ
  mdns_services : List (String × ℕ)
deriving DecidableEq, Repr

/-- `Stats.__init__`. -/
def Stats.init : Stats :=
  ⟨0, [], [], [], [], [], [], 0, 0, 0, []⟩

/-- `Stats.add_packet`. -/
def Stats.add_packet (st : Stats) (f : Frame) : Stats :=
  let st := { st with total_packets := st.total_packets + 1 }
  let st := { st with
    highest_counter := incr st.highest_counter (pyOrD f.highest_layer "") }
  if f.hasIp then
    let src := pyOrD f.src_ip ""
    let dst := pyOrD f.dst_ip ""
    let st := if src ≠ "" then { st with ip_talkers := incr st.ip_talkers src } else st
    if src ≠ "" ∧ dst ≠ "" then
      { st with ip_pairs := incr st.ip_pairs (src ++ " -> " ++ dst) }
    else st
  else st

/-- `Stats.add_l4`. -/
def Stats.add_l4 (st : Stats) (proto : String) : Stats :=
  if proto ≠ "" then { st with l4_counter := incr st.l4_counter proto } else st

/-- `Stats.add_modbus_func`. -/
def Stats.add_modbus_func (st : Stats) (fc : Option String) : Stats :=
  if truthy fc then
    { st with modbus_func_counter := incr st.modbus_func_counter (pyStr fc) }
  else st

/-- `Stats.add_mdns`. -/
def Stats.add_mdns (st : Stats) (qr service : Option String) : Stats :=
  let st :=
    if qr = some "0" ∨ qr = some "query" then
      { st with mdns_queries := st.mdns_queries + 1 }
    else if qr = some "1" ∨ qr = some "response" then
      { st with mdns_responses := st.mdns_responses + 1 }
    else st
  if truthy service then
    { st with mdns_services := incr st.mdns_services (pyStr service) }
  else st

/-- The string `'TCP' if tcp else ('UDP' if udp else None)`, with the
final `or ''` applied by the caller of `add_l4`. -/
def l4Name : Option L4 → String
  | some L4.tcp => "TCP"
  | some L4.udp => "UDP"
  | none => ""

/-- The statistics updates `parse_pcap` performs for one packet
(`add_packet`, `add_l4`, conditional `add_mdns`, conditional
`add_modbus_func`), in loop order. -/
def statsStep (st : Stats) (f : Frame) : Stats :=
  let st := st.add_packet f
  let st := st.add_l4 (l4Name f.l4)
  let st :=
    if truthy f.dns_qr || truthy f.mdns_service then st.add_mdns f.dns_qr f.mdns_service
    else st
  st.add_modbus_func f.func_code

/-- `ConversationKey`: (src ip, src port, dst ip, dst port, transaction id). -/
abbrev ConvKey := String × String × String × String × String

/-- `key_req` as built in `parse_pcap` (`x or ''` defaults). -/
def key_req (f : Frame) : ConvKey :=
  (pyOrD f.src_ip "", pyOrD f.src_port "", pyOrD f.dst_ip "", pyOrD f.dst_port "",
    pyOrD f.tid "")

/-- `key_resp` as built in `parse_pcap`: addresses and ports swapped. -/
def key_resp (f : Frame) : ConvKey :=
  (pyOrD f.dst_ip "", pyOrD f.dst_port "", pyOrD f.src_ip "", pyOrD f.src_port "",
    pyOrD f.tid "")

/-- Role swap on a conversation key. -/
def swapKey : ConvKey → ConvKey
  | (a, b, c, d, t) => (c, d, a, b, t)

/-- The pending-request record stored by `parse_pcap`. -/
structure PendingEntry where
  frame_no : Option String
  time_epoch : Option ℚ
  src_ip : Option String
  src_port : Option String
  dst_ip : Option String
  dst_port : Option String
  unit_id : Option String
  func_code : Option String
  reference : Option String
  word_cnt : Option String
deriving DecidableEq, Repr

/-- The pending entry built from a request-classified frame. -/
def reqEntry (f : Frame) : PendingEntry :=
  { frame_no := f.frame_no
    time_epoch := f.time_epoch
    src_ip := f.src_ip
    src_port := f.src_port
    dst_ip := f.dst_ip
    dst_port := f.dst_port
    unit_id := f.unit_id
    func_code := f.func_code
    reference := f.reference
    word_cnt := f.word_cnt }

/-- One row of `modbus_conversations.csv`.  `rtt_ms` keeps the computed
rational; the source serializes it with three decimals when writing. -/
structure ConvRow where
  req_frame : Option String
  resp_frame : Option String
  src_ip : Option String
  src_port : Option String
  dst_ip : Option String
  dst_port : Option String
  unit_id : Option String
  func_code : Option String
  transaction_id : Option String
  reference : Option String
  word_count : Option String
  byte_count : Option String
  values : Option String
  exception : Option String
  rtt_ms : Option ℚ
deriving DecidableEq, Repr

/-- `rtt_ms = max((t1 - t0) * 1000.0, 0.0)` when both timestamps parse. -/
def rttOf (req : PendingEntry) (f : Frame) : Option ℚ :=
  match req.time_epoch, f.time_epoch with
  | some t0, some t1 => some (max ((t1 - t0) * 1000) 0)
  | _, _ => none

/-- The matched conversation row built by `parse_pcap`. -/
def matchedRow (f : Frame) (req : PendingEntry) : ConvRow :=
  { req_frame := req.frame_no
    resp_frame := f.frame_no
    src_ip := req.src_ip
    src_port := req.src_port
    dst_ip := req.dst_ip
    dst_port := req.dst_port
    unit_id := pyOr f.unit_id req.unit_id
    func_code := pyOr f.func_code req.func_code
    transaction_id := f.tid
    reference := pyOr req.reference f.reference
    word_count := pyOr req.word_cnt f.word_cnt
    byte_count := f.byte_cnt
    values := f.values
    exception := f.exception
    rtt_ms := rttOf req f }

/-- Stats side effects of the matched branch (`add_modbus_rtt`,
`add_modbus_exception`). -/
def statsAfterMatch (st : Stats) (rtt : Option ℚ) (exc : Option String) : Stats :=
  let st :=
    match rtt with
    | some r => { st with modbus_rtts := st.modbus_rtts ++ [r] }
    | none => st
  if truthy exc then { st with modbus_exceptions := st.modbus_exceptions + 1 } else st

/-- State threaded through the `parse_pcap` loop. -/
structure PState where
  stats : Stats
  pending : List (ConvKey × PendingEntry)
  rows : List ConvRow
deriving DecidableEq, Repr

/-- The conversation-handling block of `parse_pcap`: guarded by
`modbus_fields.get('tid') and ip and (tcp or udp)`; a frame whose
complementary key is pending resolves it, any other frame is stored as a
potential request (overwriting a same-key entry). -/
def convStep (st : PState) (f : Frame) : PState :=
  if truthy f.tid && f.hasIp && f.l4.isSome then
    match alookup st.pending (key_resp f) with
    | some req =>
        { stats := statsAfterMatch st.stats (rttOf req f) f.exception
          pending := aerase st.pending (key_resp f)
          rows := st.rows ++ [matchedRow f req] }
    | none => { st with pending := ainsert st.pending (key_req f) (reqEntry f) }
  else st

/-- One loop iteration of `parse_pcap`: statistics first, then the
conversation handling. -/
def stepFrame (st : PState) (f : Frame) : PState :=
  convStep { st with stats := statsStep st.stats f } f

/-- Initial loop state. -/
def initState : PState := ⟨Stats.init, [], []⟩

/-- `parse_pcap` over a whole capture without a `--max-packets` limit. -/
def processAll (fs : List Frame) : PState := fs.foldl stepFrame initState

/-- The conversation rows `parse_pcap` emits: exactly the rows written to
`modbus_conversations.csv` (the `finally` block closes writers and writes
the stats file; it emits no further conversation rows). -/
def parse_pcap_rows (fs : List Frame) : List ConvRow := (processAll fs).rows

/-- The `parse_pcap` loop with `--max-packets m`: `processed` is
incremented first and the loop breaks before handling a packet beyond the
limit. -/
def runLimited (m : ℕ) : ℕ → PState → List Frame → PState
  | _, st, [] => st
  | p, st, f :: fs =>
      if p + 1 > m then st else runLimited m (p + 1) (stepFrame st f) fs

end PcapToCsv

namespace PcapTools

/-- The per-packet row fields of `extract_packet_row` that
`correlate_modbus` and the report reader consume. -/
structure PRow where
  modbus_trans_id : Option String
  modbus_unit_id : Option String
  modbus_func_code : Option String
  modbus_reference_num : Option String
  modbus_word_cnt : Option String
  modbus_byte_count : Option String
  modbus_exception_code : Option String
deriving DecidableEq, Repr

/-- The `indices` dictionary of `extract_packet_row`.  `is_modbus_request`
is `some true` when only the destination port is 502, `some false` when
only the source port is 502, `none` otherwise. -/
structure PIdx where
  is_modbus : Bool
  tcp_stream : Option String
  modbus_trans_id : Option String
  time_epoch : Option ℚ
  src_ip : Option String
  dst_ip : Option String
  src_port : Option String
  dst_port : Option String
  frame_number : Option ℕ
  is_modbus_request : Option Bool
deriving DecidableEq, Repr

/-- The global `pkt_layers_by_frame` store: frame number to layer name to
field name/value pairs (field values already flattened by `_first_value`). -/
abbrev LayerStore := List (ℕ × List (String × List (String × String)))

/-- One output row of `modbus_correlated.csv`.  The three row shapes of the
source (matched, unmatched response, dangling request) set different key
subsets; `write_csv` renders a missing key, `None`, and `""` all as a blank
cell, so all three are `none` here. -/
structure RRow where
  tcp_stream : Option String
  trans_id : Option String
  client_ip : Option String
  client_port : Option String
  server_ip : Option String
  server_port : Option String
  request_frame : Option ℕ
  response_frame : Option ℕ
  request_time_epoch : Option ℚ
  response_time_epoch : Option ℚ
  rtt_ms : Option ℚ
  unit_id : Option String
  function_code : Option String
  reference_number : Option String
  word_count : Option String
  byte_count : Option String
  exception_code : Option String
  register_values : Option String
deriving DecidableEq, Repr

/-- `key_req = (str(stream), str(trans_id))` with
`stream = idx.get("tcp_stream") or "-1"` and
`trans_id = idx.get("modbus_trans_id") or row.get("modbus_trans_id")`. -/
def ckey (p : PRow × PIdx) : String × String :=
  (pyOrD p.2.tcp_stream "-1", pyStr (pyOr p.2.modbus_trans_id p.1.modbus_trans_id))

/-- `rtt_ms = round(delta * 1000.0, 3)` when both epochs are present,
blank otherwise. -/
def rttC (req p : PRow × PIdx) : Option ℚ :=
  match req.2.time_epoch, p.2.time_epoch with
  | some t0, some t1 => some (roundPy3 ((t1 - t0) * 1000))
  | _, _ => none

/-- Register-value mining over the stored `modbus` layer of the response
frame (keys containing reg/register and val/uint/value, lower-cased). -/
def minedValues (L : LayerStore) (fn : Option ℕ) : List String :=
  let layers :=
    match fn with
    | none => []
    | some n => (alookup L n).getD []
  let modLayer := (alookup layers "modbus").getD []
  modLayer.filterMap (fun kv =>
    let kl := kv.1.toLower
    if (hasSub kl "reg" || hasSub kl "register")
        && (hasSub kl "val" || hasSub kl "uint" || hasSub kl "value")
    then some kv.2 else none)

/-- The matched request/response row of `correlate_modbus`. -/
def matchedRowC (L : LayerStore) (req p : PRow × PIdx) : RRow :=
  { tcp_stream := some (pyOrD p.2.tcp_stream "-1")
    trans_id := pyOr p.2.modbus_trans_id p.1.modbus_trans_id
    client_ip := req.2.src_ip
    client_port := req.2.src_port
    server_ip := p.2.src_ip
    server_port := p.2.src_port
    request_frame := req.2.frame_number
    response_frame := p.2.frame_number
    request_time_epoch := req.2.time_epoch
    response_time_epoch := p.2.time_epoch
    rtt_ms := rttC req p
    unit_id := pyOr req.1.modbus_unit_id p.1.modbus_unit_id
    function_code := pyOr req.1.modbus_func_code p.1.modbus_func_code
    reference_number := req.1.modbus_reference_num
    word_count := req.1.modbus_word_cnt
    byte_count := p.1.modbus_byte_count
    exception_code := p.1.modbus_exception_code
    register_values :=
      some (let vs := minedValues L p.2.frame_number
            if vs.isEmpty then "" else String.intercalate ";" vs) }

/-- The unmatched-response row of `correlate_modbus`: minimal info, blank
request side, not stored as a pending request. -/
def unmatchedRespRow (p : PRow × PIdx) : RRow :=
  { tcp_stream := some (pyOrD p.2.tcp_stream "-1")
    trans_id := pyOr p.2.modbus_trans_id p.1.modbus_trans_id
    client_ip := none
    client_port := none
    server_ip := none
    server_port := none
    request_frame := none
    response_frame := p.2.frame_number
    request_time_epoch := none
    response_time_epoch := none
    rtt_ms := none
    unit_id := p.1.modbus_unit_id
    function_code := p.1.modbus_func_code
    reference_number := none
    word_count := none
    byte_count := none
    exception_code := p.1.modbus_exception_code
    register_values := none }

/-- The dangling-request row emitted by the end-of-stream flush. -/
def flushRow (ke : (String × String) × (PRow × PIdx)) : RRow :=
  { tcp_stream := some ke.1.1
    trans_id := some ke.1.2
    client_ip := none
    client_port := none
    server_ip := none
    server_port := none
    request_frame := ke.2.2.frame_number
    response_frame := none
    request_time_epoch := none
    response_time_epoch := none
    rtt_ms := none
    unit_id := ke.2.1.modbus_unit_id
    function_code := ke.2.1.modbus_func_code
    reference_number := ke.2.1.modbus_reference_num
    word_count := ke.2.1.modbus_word_cnt
    byte_count := none
    exception_code := none
    register_values := none }

/-- State of the `correlate_modbus` loop: `open_reqs` and the output rows. -/
structure CState where
  reqs : List ((String × String) × (PRow × PIdx))
  out : List RRow
deriving DecidableEq, Repr

/-- One iteration of the `correlate_modbus` loop. -/
def corrStep (L : LayerStore) (st : CState) (p : PRow × PIdx) : CState :=
  if p.2.is_modbus then
    match p.2.is_modbus_request with
    | some true => { st with reqs := ainsert st.reqs (ckey p) p }
    | some false =>
        match alookup st.reqs (ckey p) with
        | some req =>
            { reqs := aerase st.reqs (ckey p)
              out := st.out ++ [matchedRowC L req p] }
        | none => { st with out := st.out ++ [unmatchedRespRow p] }
    | none => st
  else st

/-- The loop of `correlate_modbus` over the packet sequence. -/
def corrFold (L : LayerStore) (ps : List (PRow × PIdx)) : CState :=
  ps.foldl (corrStep L) ⟨[], []⟩

/-- `correlate_modbus`: the loop output followed by the end-of-stream flush
of every dangling request, in pending-table (insertion) order. -/
def correlate_modbus (L : LayerStore) (ps : List (PRow × PIdx)) : List RRow :=
  (corrFold L ps).out ++ ((corrFold L ps).reqs).map flushRow

/-- The Modbus part of `build_analysis_report`: the function-code counter,
exception count and average RTT over rows with a numeric `rtt_ms`. -/
structure MbSummary where
  func_counter : List (String × ℕ)
  exceptions : ℕ
  rtt_count : ℕ
  avg_rtt : Option ℚ
deriving DecidableEq, Repr

/-- `build_analysis_report` aggregation over the correlated rows. -/
def buildSummary (rows : List RRow) : MbSummary :=
  let fc := rows.foldl (fun acc m => incr acc (pyOrD m.function_code "?")) []
  let exc := (rows.filter (fun m => truthy m.exception_code)).length
  let rtts := rows.filterMap (fun m => m.rtt_ms)
  { func_counter := fc
    exceptions := exc
    rtt_count := rtts.length
    avg_rtt := if rtts.isEmpty then none else some (rtts.sum / (rtts.length : ℚ)) }

/-- A run of the `correlate_modbus` loop as a step relation: `CorrRun L s ps s1`
holds when iterating `corrStep` from `s` over `ps` can end in `s1`. -/
inductive CorrRun (L : LayerStore) : CState → List (PRow × PIdx) → CState → Prop
  | nil (s : CState) : CorrRun L s [] s
  | cons {s : CState} {p : PRow × PIdx} {ps : List (PRow × PIdx)} {s1 : CState} :
      CorrRun L (corrStep L s p) ps s1 → CorrRun L s (p :: ps) s1

/-- The rows the tool finally writes for a loop end state. -/
def finishRows (st : CState) : List RRow := st.out ++ st.reqs.map flushRow

end PcapTools

namespace PcapAnalyzer

/-- `ModbusTCPAnalyzer.function_codes`. -/
def function_codes : List (ℕ × String) :=
  [(1, "Read Coils"),
   (2, "Read Discrete Inputs"),
   (3, "Read Holding Registers"),
   (4, "Read Input Registers"),
   (5, "Write Single Coil"),
   (6, "Write Single Register"),
   (15, "Write Multiple Coils"),
   (16, "Write Multiple Registers")]

/-- `self.function_codes.get(function_code, f"Unknown ({function_code})")`. -/
def functionName (c : ℕ) : String :=
  (alookup function_codes c).getD ("Unknown (" ++ toString c ++ ")")

/-- The dictionary built by `parse_modbus_packet`.  `raw_data` keeps the
payload bytes past the 8-byte header; the source renders them as a hex
string when serializing. -/
structure MbData where
  transaction_id : ℕ
  protocol_id : ℕ
  pdu_length : ℕ
  unit_id : ℕ
  function_code : ℕ
  function_name : String
  data_length : ℕ
  raw_data : List ℕ
  start_address : Option ℕ
  register_count : Option ℕ
deriving DecidableEq, Repr

/-- Byte of a payload at an index (all reads below are guarded by the
length check, so the default is never hit on the source paths). -/
def byteAt (pl : List ℕ) (i : ℕ) : ℕ := (pl.get? i).getD 0

/-- `ModbusTCPAnalyzer.parse_modbus_packet` on the TCP payload bytes.  The
source repeats the `len < 8` check after reading the header; the second
check is subsumed by the first and omitted here. -/
def parse_modbus_packet (pl : List ℕ) : Option MbData :=
  if pl.length < 8 then none
  else
    let transaction_id := 256 * byteAt pl 0 + byteAt pl 1
    let protocol_id := 256 * byteAt pl 2 + byteAt pl 3
    let pduLen := 256 * byteAt pl 4 + byteAt pl 5
    let unit_id := byteAt pl 6
    if protocol_id ≠ 0 then none
    else
      let function_code := byteAt pl 7
      let base : MbData :=
        { transaction_id := transaction_id
          protocol_id := protocol_id
          pdu_length := pduLen
          unit_id := unit_id
          function_code := function_code
          function_name := functionName function_code
          data_length := pl.length - 8
          raw_data := pl.drop 8
          start_address := none
          register_count := none }
      if function_code = 3 then
        if 12 ≤ pl.length then
          some { base with
                   start_address := some (256 * byteAt pl 8 + byteAt pl 9)
                   register_count := some (256 * byteAt pl 10 + byteAt pl 11) }
        else some base
      else some base

/-- Transport layer of a scapy packet: at most one of TCP/UDP. -/
inductive Transport
  | tcp (sport dport : ℕ) (payload : List ℕ)
  | udp (sport dport : ℕ) (payload : List ℕ)
  | other
deriving DecidableEq, Repr

/-- A loaded packet as `PCAPAnalyzer` consumes it: capture time, IP layer
addresses when present, transport layer. -/
structure SPacket where
  time : ℚ
  ipSrc : Option String
  ipDst : Option String
  transport : Transport
deriving DecidableEq, Repr

/-- The per-query record `analyze_modbus_transactions` stores in
`pending_queries` (the timestamp also stands for the formatted datetime
string of the source). -/
structure QueryInfo where
  packet_number : ℕ
  timestamp : ℚ
  src_ip : String
  dst_ip : String
  src_port : ℕ
  dst_port : ℕ
  is_query : Bool
  modbus_data : MbData
deriving DecidableEq, Repr

/-- One matched transaction of `analyze_modbus_transactions`
(`query_time`/`response_time` keep the raw timestamps the source formats). -/
structure ATrans where
  transaction_id : ℕ
  query_packet : ℕ
  response_packet : ℕ
  query_time : ℚ
  response_time : ℚ
  response_time_ms : ℚ
  client_ip : String
  server_ip : String
  function_code : ℕ
  function_name : String
  unit_id : ℕ
  query_data : List ℕ
  response_data : List ℕ
  query_length : ℕ
  response_length : ℕ
  start_address : Option ℕ
  register_count : Option ℕ
deriving DecidableEq, Repr

/-- State of the `analyze_modbus_transactions` loop: emitted transactions
and `pending_queries`, keyed by transaction id alone. -/
structure ATState where
  transactions : List ATrans
  pending : List (ℕ × QueryInfo)
deriving DecidableEq, Repr

/-- One iteration of `analyze_modbus_transactions` at enumeration index
`i` (packet number `i + 1`).  Responses with no pending query fall through
without effect; queries overwrite any pending entry for their id. -/
def analyzeStep (st : ATState) (i : ℕ) (p : SPacket) : ATState :=
  match p.transport with
  | Transport.tcp sport dport pl =>
      if sport ≠ 502 ∧ dport ≠ 502 then st
      else
        match parse_modbus_packet pl with
        | none => st
        | some md =>
            let info : QueryInfo :=
              { packet_number := i + 1
                timestamp := p.time
                src_ip := p.ipSrc.getD ""
                dst_ip := p.ipDst.getD ""
                src_port := sport
                dst_port := dport
                is_query := dport = 502
                modbus_data := md }
            if dport = 502 then
              { st with pending := ainsert st.pending md.transaction_id info }
            else
              match alookup st.pending md.transaction_id with
              | some q =>
                  let tx : ATrans :=
                    { transaction_id := md.transaction_id
                      query_packet := q.packet_number
                      response_packet := i + 1
                      query_time := q.timestamp
                      response_time := p.time
                      response_time_ms := roundPy3 ((p.time - q.timestamp) * 1000)
                      client_ip := q.src_ip
                      server_ip := q.dst_ip
                      function_code := q.modbus_data.function_code
                      function_name := q.modbus_data.function_name
                      unit_id := q.modbus_data.unit_id
                      query_data := q.modbus_data.raw_data
                      response_data := md.raw_data
                      query_length := q.modbus_data.data_length
                      response_length := md.data_length
                      start_address := q.modbus_data.start_address
                      register_count := q.modbus_data.register_count }
                  { transactions := st.transactions ++ [tx]
                    pending := aerase st.pending md.transaction_id }
              | none => st
  | _ => st

/-- The enumerated loop of `analyze_modbus_transactions`. -/
def analyzeGo (st : ATState) (i : ℕ) : List SPacket → ATState
  | [] => st
  | p :: ps => analyzeGo (analyzeStep st i p) (i + 1) ps

/-- Loop state after consuming a capture. -/
def analyzeState (ps : List SPacket) : ATState := analyzeGo ⟨[], []⟩ 0 ps

/-- `analyze_modbus_transactions`: the matched transactions in emission
order (pending queries left at the end are returned nowhere). -/
def analyze_modbus_transactions (ps : List SPacket) : List ATrans :=
  (analyzeState ps).transactions

/-- The four protocol-histogram counters of `generate_network_analysis`
(`protocol_count` with keys TCP, Modbus/TCP, UDP, MDNS). -/
structure ProtoCount where
  tcp : ℕ
  modbusTcp : ℕ
  udp : ℕ
  mdns : ℕ
deriving DecidableEq, Repr

/-- Per-packet update of `protocol_count` in `generate_network_analysis`:
TCP packets always count as TCP, additionally as Modbus/TCP when either
port is 502; UDP packets count as UDP, additionally as MDNS on port 5353. -/
def protoStep (c : ProtoCount) (p : SPacket) : ProtoCount :=
  match p.transport with
  | Transport.tcp sport dport _ =>
      let c1 := { c with tcp := c.tcp + 1 }
      if sport = 502 ∨ dport = 502 then { c1 with modbusTcp := c1.modbusTcp + 1 }
      else c1
  | Transport.udp sport dport _ =>
      let c1 := { c with udp := c.udp + 1 }
      if sport = 5353 ∨ dport = 5353 then { c1 with mdns := c1.mdns + 1 }
      else c1
  | Transport.other => c

/-- The protocol histogram over a capture. -/
def protoCounts (ps : List SPacket) : ProtoCount :=
  ps.foldl protoStep ⟨0, 0, 0, 0⟩

/-- `total_packets = len(self.packets)` in the analysis summary. -/
def totalPackets (ps : List SPacket) : ℕ := ps.length

/-- Sum of the protocol-histogram values. -/
def sumProtoCounts (c : ProtoCount) : ℕ := c.tcp + c.modbusTcp + c.udp + c.mdns

end PcapAnalyzer

namespace PcapToCsv

/-- Example: a Modbus request frame, 10.0.0.5:51000 to 10.0.0.9:502, tid 7. -/
def exF1 : Frame :=
  { frame_no := some "1", time_epoch := some 1, highest_layer := some "MODBUS"
    hasIp := true, src_ip := some "10.0.0.5", dst_ip := some "10.0.0.9"
    l4 := some L4.tcp, src_port := some "51000", dst_port := some "502"
    dns_qr := none, mdns_service := none
    tid := some "7", proto_id := some "0", mb_length := some "6"
    unit_id := some "1", func_code := some "3", reference := some "0"
    word_cnt := some "2", byte_cnt := none, exception := none, values := none }

/-- Example: a second request on the same 5-tuple reusing tid 7. -/
def exF2 : Frame := { exF1 with frame_no := some "2", time_epoch := some 2 }

/-- Example: the same second request with a fresh tid 8 instead. -/
def exF2fresh : Frame := { exF2 with tid := some "8" }

/-- The conversation key shared by `exF1` and `exF2`. -/
def exKey : ConvKey := ("10.0.0.5", "51000", "10.0.0.9", "502", "7")

/-- Example: a request from a different client, 10.0.0.6:52000, same tid 7. -/
def exF5 : Frame :=
  { exF1 with frame_no := some "3", src_ip := some "10.0.0.6", src_port := some "52000" }

/-- The loop state after processing `exF1` alone. -/
def exStC : PState := processAll [exF1]

/-- Example: the response matching `exF1` (reverse direction, tid 7). -/
def exF4resp : Frame :=
  { frame_no := some "2", time_epoch := some 2, highest_layer := some "MODBUS"
    hasIp := true, src_ip := some "10.0.0.9", dst_ip := some "10.0.0.5"
    l4 := some L4.tcp, src_port := some "502", dst_port := some "51000"
    dns_qr := none, mdns_service := none
    tid := some "7", proto_id := some "0", mb_length := some "7"
    unit_id := some "1", func_code := some "3", reference := none
    word_cnt := none, byte_cnt := some "4", exception := none
    values := some "0001;0002" }

end PcapToCsv

namespace PcapTools

/-- Example per-packet row of a Modbus request. -/
def exReqP : PRow :=
  { modbus_trans_id := some "7", modbus_unit_id := some "1"
    modbus_func_code := some "3", modbus_reference_num := some "0"
    modbus_word_cnt := some "2", modbus_byte_count := none
    modbus_exception_code := none }

/-- Example indices of a Modbus request (destination port 502). -/
def exReqI : PIdx :=
  { is_modbus := true, tcp_stream := some "0", modbus_trans_id := some "7"
    time_epoch := some 1, src_ip := some "10.0.0.5", dst_ip := some "10.0.0.9"
    src_port := some "51000", dst_port := some "502", frame_number := some 10
    is_modbus_request := some true }

/-- Example request packet for `correlate_modbus`. -/
def exReq : PRow × PIdx := (exReqP, exReqI)

/-- Example per-packet row of a Modbus response. -/
def exRespP : PRow :=
  { modbus_trans_id := some "9", modbus_unit_id := some "1"
    modbus_func_code := some "3", modbus_reference_num := none
    modbus_word_cnt := none, modbus_byte_count := some "4"
    modbus_exception_code := none }

/-- Example indices of a Modbus response (source port 502), tid 9. -/
def exRespI : PIdx :=
  { is_modbus := true, tcp_stream := some "0", modbus_trans_id := some "9"
    time_epoch := some 2, src_ip := some "10.0.0.9", dst_ip := some "10.0.0.5"
    src_port := some "502", dst_port := some "51000", frame_number := some 11
    is_modbus_request := some false }

/-- Example response packet for `correlate_modbus`. -/
def exResp : PRow × PIdx := (exRespP, exRespI)

end PcapTools

namespace PcapAnalyzer

/-- A Modbus/TCP payload: tid 7, protocol id 0, length 6, unit 1,
function 3, start address 0, count 2. -/
def exMbPl : List ℕ := [0, 7, 0, 0, 0, 6, 1, 3, 0, 0, 0, 2]

/-- The same payload with protocol identifier 1 (bytes 2..3). -/
def exBadPl : List ℕ := [0, 7, 0, 1, 0, 6, 1, 3, 0, 0, 0, 2]

/-- Example query packet from client 10.0.0.1, tid 7, at t = 1. -/
def exQA : SPacket :=
  { time := 1, ipSrc := some "10.0.0.1", ipDst := some "10.0.0.9"
    transport := Transport.tcp 51000 502 exMbPl }

/-- Example query packet from a different client 10.0.0.2, same tid 7. -/
def exQB : SPacket :=
  { time := 2, ipSrc := some "10.0.0.2", ipDst := some "10.0.0.9"
    transport := Transport.tcp 52000 502 exMbPl }

/-- Example query packet at t = 2 (for the negative-RTT scenario). -/
def exQ : SPacket :=
  { time := 2, ipSrc := some "10.0.0.5", ipDst := some "10.0.0.9"
    transport := Transport.tcp 51000 502 exMbPl }

/-- Example response packet, tid 7, whose timestamp t = 1 precedes the
query time t = 2 of `exQ`. -/
def exRespNeg : SPacket :=
  { time := 1, ipSrc := some "10.0.0.9", ipDst := some "10.0.0.5"
    transport := Transport.tcp 502 51000 [0, 7, 0, 0, 0, 5, 1, 3, 4, 0, 1] }

/-- A one-packet capture on the Modbus port. -/
def exCapture : List SPacket := [exQA]

/-- The transaction `analyze_modbus_transactions` emits for the capture
`[exQ, exRespNeg]`: the rtt field is the unclamped rounded difference of
the two timestamps, (1 - 2) seconds times 1000. -/
def exTxNeg : ATrans :=
  { transaction_id := 7
    query_packet := 1
    response_packet := 2
    query_time := 2
    response_time := 1
    response_time_ms := roundPy3 (((1 : ℚ) - 2) * 1000)
    client_ip := "10.0.0.5"
    server_ip := "10.0.0.9"
    function_code := 3
    function_name := "Read Holding Registers"
    unit_id := 1
    query_data := [0, 0, 0, 2]
    response_data := [4, 0, 1]
    query_length := 4
    response_length := 3
    start_address := some 0
    register_count := some 2 }

end PcapAnalyzer

/-- `rhe` is the identity on integers. -/
theorem rhe_intCast (n : ℤ) : rhe ((n : ℤ) : ℚ) = n := by
  have hnum : ((n : ℚ)).num = n := Rat.num_intCast n
  have hden : ((n : ℚ)).den = 1 := Rat.den_intCast n
  simp only [rhe, hnum, hden]
  norm_num

/-- Looking up the key just assigned returns the assigned value. -/
theorem alookup_ainsert_self {α β : Type} [DecidableEq α]
    (l : List (α × β)) (k : α) (v : β) :
    alookup (ainsert l k v) k = some v := by
  induction l with
  | nil => simp [ainsert, alookup]
  | cons hd t ih =>
      obtain ⟨a, b⟩ := hd
      by_cases hk : k = a
      · subst hk
        simp [ainsert, alookup]
      · simp [ainsert, alookup, hk, ih]

/-- Assignment at one key leaves lookups at another key unchanged. -/
theorem alookup_ainsert_ne {α β : Type} [DecidableEq α]
    (l : List (α × β)) (k k' : α) (v : β) (hne : k' ≠ k) :
    alookup (ainsert l k v) k' = alookup l k' := by
  induction l with
  | nil => simp [ainsert, alookup, hne]
  | cons hd t ih =>
      obtain ⟨a, b⟩ := hd
      by_cases hk : k = a
      · subst hk
        simp [ainsert, alookup, hne]
      · simp [ainsert, alookup, hk, ih]

namespace PcapToCsv

/-- `add_packet` increments the total packet count by exactly one. -/
theorem add_packet_total (s : Stats) (f : Frame) :
    (s.add_packet f).total_packets = s.total_packets + 1 := by
  simp only [Stats.add_packet]
  split <;> [skip; rfl]
  split <;> split <;> rfl

/-- `add_l4` does not change the total packet count. -/
theorem add_l4_total (s : Stats) (p : String) :
    (s.add_l4 p).total_packets = s.total_packets := by
  simp only [Stats.add_l4]
  split <;> rfl

/-- `add_mdns` does not change the total packet count. -/
theorem add_mdns_total (s : Stats) (qr service : Option String) :
    (s.add_mdns qr service).total_packets = s.total_packets := by
  simp only [Stats.add_mdns]
  split_ifs <;> rfl

/-- `add_modbus_func` does not change the total packet count. -/
theorem add_modbus_func_total (s : Stats) (fc : Option String) :
    (s.add_modbus_func fc).total_packets = s.total_packets := by
  simp only [Stats.add_modbus_func]
  split <;> rfl

/-- The per-packet statistics block increments the total by exactly one. -/
theorem statsStep_total (s : Stats) (f : Frame) :
    (statsStep s f).total_packets = s.total_packets + 1 := by
  simp only [statsStep]
  rw [add_modbus_func_total]
  split
  · rw [add_mdns_total, add_l4_total, add_packet_total]
  · rw [add_l4_total, add_packet_total]

/-- The matched-branch stats updates do not change the total. -/
theorem statsAfterMatch_total (s : Stats) (rtt : Option ℚ) (exc : Option String) :
    (statsAfterMatch s rtt exc).total_packets = s.total_packets := by
  simp only [statsAfterMatch]
  cases rtt <;> split <;> rfl

/-- The conversation-handling block does not change the total. -/
theorem convStep_total (st : PState) (f : Frame) :
    (convStep st f).stats.total_packets = st.stats.total_packets := by
  simp only [convStep]
  split
  · cases halk : alookup st.pending (key_resp f) with
    | some req => simp [statsAfterMatch_total]
    | none => rfl
  · rfl

/-- One loop iteration of `parse_pcap` counts the packet exactly once. -/
theorem stepFrame_total (st : PState) (f : Frame) :
    (stepFrame st f).stats.total_packets = st.stats.total_packets + 1 := by
  simp only [stepFrame]
  rw [convStep_total]
  exact statsStep_total st.stats f

/-- Folding the loop adds the list length to the total. -/
theorem foldl_total (fs : List Frame) (st : PState) :
    (fs.foldl stepFrame st).stats.total_packets
      = st.stats.total_packets + fs.length := by
  induction fs generalizing st with
  | nil => simp
  | cons f fs ih =>
      rw [List.foldl_cons, ih, stepFrame_total, List.length_cons]
      omega

/-- The limited loop processes `min (m - p) fs.length` further packets. -/
theorem runLimited_total (m : ℕ) (fs : List Frame) (p : ℕ) (st : PState) :
    (runLimited m p st fs).stats.total_packets
      = st.stats.total_packets + min (m - p) fs.length := by
  induction fs generalizing p st with
  | nil => simp [runLimited]
  | cons f fs ih =>
      simp only [runLimited]
      split
      · have h0 : m - p = 0 := by omega
        simp [h0]
      · rw [ih, stepFrame_total, List.length_cons]
        omega

/-- A request-classified step (complementary key not pending) only stores
the pending entry, overwriting any entry at the request key. -/
theorem convStep_request (st : PState) (f : Frame)
    (h1 : truthy f.tid = true) (h2 : f.hasIp = true) (h3 : f.l4.isSome = true)
    (h4 : alookup st.pending (key_resp f) = none) :
    convStep st f
      = { st with pending := ainsert st.pending (key_req f) (reqEntry f) } := by
  simp [convStep, h1, h2, h3, h4]

end PcapToCsv

/-- C1, counterexample: in `parse_pcap`, reusing a conversation key before
resolution (`exF2` after `exF1`) leaves the run Stats identical to those of
a run in which the second request used a fresh tid (`exF2fresh`), emits no
row, and leaves a single pending entry holding the new request — the prior
request is dropped without any counter being incremented; `Stats` has no
superseded counter at all. -/
theorem c1_superseded_counterexample :
    (PcapToCsv.processAll [PcapToCsv.exF1, PcapToCsv.exF2]).stats
        = (PcapToCsv.processAll [PcapToCsv.exF1, PcapToCsv.exF2fresh]).stats
    ∧ (PcapToCsv.processAll [PcapToCsv.exF1, PcapToCsv.exF2]).rows = []
    ∧ ((PcapToCsv.processAll [PcapToCsv.exF1, PcapToCsv.exF2]).pending.map
        (fun kv => (kv.1, kv.2.frame_no))) = [(PcapToCsv.exKey, some "2")] := by
  refine ⟨?_, ?_, ?_⟩ <;> decide

/-- C1, amended: when a request-classified frame arrives while a pending
entry for its key exists, `parse_pcap` overwrites the pending entry with
the new request; the superseded request is dropped silently — no Stats
counter is incremented and no row is emitted (no "superseded" counter
exists in `Stats`). -/
theorem c1_superseded_amended (st : PcapToCsv.PState) (f : PcapToCsv.Frame)
    (h1 : truthy f.tid = true) (h2 : f.hasIp = true) (h3 : f.l4.isSome = true)
    (h4 : alookup st.pending (PcapToCsv.key_resp f) = none) :
    PcapToCsv.convStep st f
        = { st with
              pending := ainsert st.pending (PcapToCsv.key_req f) (PcapToCsv.reqEntry f) }
    ∧ alookup (PcapToCsv.convStep st f).pending (PcapToCsv.key_req f)
        = some (PcapToCsv.reqEntry f)
    ∧ (PcapToCsv.convStep st f).stats = st.stats
    ∧ (PcapToCsv.convStep st f).rows = st.rows := by
  have h := PcapToCsv.convStep_request st f h1 h2 h3 h4
  refine ⟨h, ?_, by rw [h], by rw [h]⟩
  rw [h]
  exact alookup_ainsert_self st.pending (PcapToCsv.key_req f) (PcapToCsv.reqEntry f)

/-- C1, witness: the amended statement at the concrete reuse scenario
(`exF2` arriving while `exF1` is pending on the same key). -/
theorem c1_superseded_witness :
    PcapToCsv.convStep PcapToCsv.exStC PcapToCsv.exF2
      = { PcapToCsv.exStC with
            pending := ainsert PcapToCsv.exStC.pending
              (PcapToCsv.key_req PcapToCsv.exF2) (PcapToCsv.reqEntry PcapToCsv.exF2) } :=
  (c1_superseded_amended PcapToCsv.exStC PcapToCsv.exF2
    (by decide) (by decide) (by decide) (by decide)).1

/-- C3, counterexample: in `parse_pcap` (cited for this claim), a request
left pending at the natural end of the stream is not emitted at all — the
conversation CSV receives no row while the pending table still holds the
request, so the pending request is lost. -/
theorem c3_flush_counterexample :
    PcapToCsv.parse_pcap_rows [PcapToCsv.exF1] = []
    ∧ (PcapToCsv.processAll [PcapToCsv.exF1]).pending.length = 1 := by
  refine ⟨?_, ?_⟩ <;> decide

/-- C3, amended: in `correlate_modbus` (pcap_tools), every `PendingRequest`
remaining at end of stream is emitted as exactly one unmatched-request row
with blank response-side fields and blank rtt; in `parse_pcap`
(pcap_to_csv.py), remaining pending requests are discarded without a row. -/
theorem c3_flush_amended (L : PcapTools.LayerStore)
    (ps : List (PcapTools.PRow × PcapTools.PIdx))
    (k : String × String) (e : PcapTools.PRow × PcapTools.PIdx)
    (h : (k, e) ∈ (PcapTools.corrFold L ps).reqs) :
    PcapTools.correlate_modbus L ps
        = (PcapTools.corrFold L ps).out
            ++ ((PcapTools.corrFold L ps).reqs).map PcapTools.flushRow
    ∧ PcapTools.flushRow (k, e) ∈ PcapTools.correlate_modbus L ps
    ∧ (PcapTools.correlate_modbus L ps).length
        = (PcapTools.corrFold L ps).out.length + (PcapTools.corrFold L ps).reqs.length
    ∧ (PcapTools.flushRow (k, e)).response_frame = none
    ∧ (PcapTools.flushRow (k, e)).rtt_ms = none
    ∧ (PcapTools.flushRow (k, e)).response_time_epoch = none
    ∧ (PcapTools.flushRow (k, e)).byte_count = none
    ∧ (PcapTools.flushRow (k, e)).exception_code = none
    ∧ (PcapTools.flushRow (k, e)).register_values = none := by
  refine ⟨rfl, ?_, ?_, rfl, rfl, rfl, rfl, rfl, rfl⟩
  · exact List.mem_append_right _ (List.mem_map_of_mem PcapTools.flushRow h)
  · simp [PcapTools.correlate_modbus]

/-- C3, witness: the flush property at a concrete one-request stream whose
request dangles at end of stream. -/
theorem c3_flush_witness :
    PcapTools.flushRow (("0", "7"), PcapTools.exReq)
      ∈ PcapTools.correlate_modbus [] [PcapTools.exReq] :=
  (c3_flush_amended [] [PcapTools.exReq] ("0", "7") PcapTools.exReq (by decide)).2.1

/-- C7: every frame presented to the `parse_pcap` loop increments
`Stats.total_packets` exactly once, so the final total equals the number of
frames presented — the full list length without a limit, and
`min m length` with `--max-packets m` — regardless of how many optional
fields of each frame failed to extract. -/
theorem c7_total_packets :
    (∀ (st : PcapToCsv.PState) (f : PcapToCsv.Frame),
        (PcapToCsv.stepFrame st f).stats.total_packets
          = st.stats.total_packets + 1)
    ∧ (∀ fs : List PcapToCsv.Frame,
        (PcapToCsv.processAll fs).stats.total_packets = fs.length)
    ∧ (∀ (m : ℕ) (fs : List PcapToCsv.Frame),
        (PcapToCsv.runLimited m 0 PcapToCsv.initState fs).stats.total_packets
          = min m fs.length) := by
  refine ⟨PcapToCsv.stepFrame_total, ?_, ?_⟩
  · intro fs
    rw [PcapToCsv.processAll, PcapToCsv.foldl_total]
    simp [PcapToCsv.initState, PcapToCsv.Stats.init]
  · intro m fs
    rw [PcapToCsv.runLimited_total]
    simp [PcapToCsv.initState, PcapToCsv.Stats.init]

/-- C2, counterexample: in `parse_pcap` (also cited for this claim), a
response-classified frame — source port 502 — whose complementary key has
no pending entry is handled by the `else` branch at the cited lines: no
unmatched-response row is emitted and the frame is stored as a new pending
request under its own key, contradicting the claim there.  `exF4resp`
(10.0.0.9:502 to 10.0.0.5:51000, tid 7) processed from the empty state
yields no row and one pending entry keyed by its own direction. -/
theorem c2_unmatched_response_counterexample :
    PcapToCsv.parse_pcap_rows [PcapToCsv.exF4resp] = []
    ∧ ((PcapToCsv.processAll [PcapToCsv.exF4resp]).pending.map
        (fun kv => (kv.1, kv.2.frame_no)))
      = [(("10.0.0.9", "502", "10.0.0.5", "51000", "7"), some "2")] := by
  refine ⟨?_, ?_⟩ <;> decide

/-- C2, amended: in `correlate_modbus` (pcap_tools), a response-classified
frame whose key has no pending request yields exactly one
unmatched-response row with all request-side fields blank (request frame,
request timestamp, client address/port, request-only Modbus fields, rtt),
the pending table is left unchanged, and the frame is not stored as a new
pending request; in `parse_pcap` (pcap_to_csv.py), such a frame emits no
row and is instead stored as a new pending request. -/
theorem c2_unmatched_response (L : PcapTools.LayerStore) (st : PcapTools.CState)
    (p : PcapTools.PRow × PcapTools.PIdx)
    (h1 : p.2.is_modbus = true)
    (h2 : p.2.is_modbus_request = some false)
    (h3 : alookup st.reqs (PcapTools.ckey p) = none) :
    PcapTools.corrStep L st p
        = { st with out := st.out ++ [PcapTools.unmatchedRespRow p] }
    ∧ (PcapTools.corrStep L st p).reqs = st.reqs
    ∧ (PcapTools.unmatchedRespRow p).request_frame = none
    ∧ (PcapTools.unmatchedRespRow p).request_time_epoch = none
    ∧ (PcapTools.unmatchedRespRow p).client_ip = none
    ∧ (PcapTools.unmatchedRespRow p).client_port = none
    ∧ (PcapTools.unmatchedRespRow p).reference_number = none
    ∧ (PcapTools.unmatchedRespRow p).word_count = none
    ∧ (PcapTools.unmatchedRespRow p).rtt_ms = none := by
  have h : PcapTools.corrStep L st p
      = { st with out := st.out ++ [PcapTools.unmatchedRespRow p] } := by
    simp [PcapTools.corrStep, h1, h2, h3]
  exact ⟨h, by rw [h], rfl, rfl, rfl, rfl, rfl, rfl, rfl⟩

/-- C2, witness: the unmatched-response behaviour at a concrete response
packet processed against an empty pending table. -/
theorem c2_unmatched_response_witness :
    PcapTools.corrStep [] ⟨[], []⟩ PcapTools.exResp
      = { PcapTools.CState.mk [] [] with
            out := [] ++ [PcapTools.unmatchedRespRow PcapTools.exResp] } :=
  (c2_unmatched_response [] ⟨[], []⟩ PcapTools.exResp rfl rfl rfl).1

/-- C4, counterexample: `analyze_modbus_transactions` (cited for this
claim) emits a matched transaction whose rtt is the unclamped
`round((response time - query time) * 1000, 3)`: with the response stamped
one second before the query it emits rtt -1000 ms, which is negative, so
rtt does not equal `max(0, delta * 1000)` there. -/
theorem c4_rtt_counterexample :
    ((PcapAnalyzer.analyze_modbus_transactions
        [PcapAnalyzer.exQ, PcapAnalyzer.exRespNeg]).map
      (fun t => t.response_time_ms)) = [(-1000 : ℚ)]
    ∧ ((-1000 : ℚ) < 0) := by
  have hrun : PcapAnalyzer.analyze_modbus_transactions
      [PcapAnalyzer.exQ, PcapAnalyzer.exRespNeg] = [PcapAnalyzer.exTxNeg] := rfl
  have harith : roundPy3 (((1 : ℚ) - 2) * 1000) = -1000 := by
    have h1 : ((((1 : ℚ) - 2) * 1000) * 1000) = ((-1000000 : ℤ) : ℚ) := by norm_num
    simp only [roundPy3, h1, rhe_intCast]
    norm_num
  constructor
  · rw [hrun]
    simp [PcapAnalyzer.exTxNeg, harith]
  · norm_num

/-- C4, amended: in `parse_pcap` the matched row's rtt equals
`max(0, (response timestamp - request timestamp) * 1000)` whenever both
timestamps parsed, hence is never negative; `analyze_modbus_transactions`
and `correlate_modbus` instead emit the unclamped rounded difference,
which is negative when the response timestamp precedes the request. -/
theorem c4_rtt_amended (st : PcapToCsv.PState) (f : PcapToCsv.Frame)
    (req : PcapToCsv.PendingEntry) (t0 t1 : ℚ)
    (h1 : truthy f.tid = true) (h2 : f.hasIp = true) (h3 : f.l4.isSome = true)
    (h4 : alookup st.pending (PcapToCsv.key_resp f) = some req)
    (h5 : req.time_epoch = some t0) (h6 : f.time_epoch = some t1) :
    (PcapToCsv.convStep st f).rows
        = st.rows ++ [PcapToCsv.matchedRow f req]
    ∧ (PcapToCsv.matchedRow f req).rtt_ms = some (max ((t1 - t0) * 1000) 0)
    ∧ (∀ r : ℚ, (PcapToCsv.matchedRow f req).rtt_ms = some r → 0 ≤ r) := by
  have hr : PcapToCsv.rttOf req f = some (max ((t1 - t0) * 1000) 0) := by
    simp [PcapToCsv.rttOf, h5, h6]
  refine ⟨?_, ?_, ?_⟩
  · simp [PcapToCsv.convStep, h1, h2, h3, h4]
  · simp [PcapToCsv.matchedRow, hr]
  · intro r hrr
    simp only [PcapToCsv.matchedRow] at hrr
    rw [hr] at hrr
    have : max ((t1 - t0) * 1000) 0 = r := by
      exact Option.some.inj hrr
    rw [← this]
    exact le_max_right _ _

/-- C4, witness: the clamped rtt at the concrete matched pair
`exF1` (t = 1) and `exF4resp` (t = 2). -/
theorem c4_rtt_witness :
    (PcapToCsv.matchedRow PcapToCsv.exF4resp (PcapToCsv.reqEntry PcapToCsv.exF1)).rtt_ms
      = some (max (((2 : ℚ) - 1) * 1000) 0) :=
  (c4_rtt_amended PcapToCsv.exStC PcapToCsv.exF4resp
    (PcapToCsv.reqEntry PcapToCsv.exF1) 1 2
    (by decide) (by decide) (by decide) (by decide) (by decide) (by decide)).2.1

/-- C5, counterexample: the pending table of `analyze_modbus_transactions`
(cited for this claim) is keyed by the transaction identifier alone: two
in-flight queries from distinct clients 10.0.0.1 and 10.0.0.2 that share
tid 7 collide into a single pending entry, the second overwriting the
first. -/
theorem c5_key_counterexample :
    ((PcapAnalyzer.analyzeState [PcapAnalyzer.exQA, PcapAnalyzer.exQB]).pending).length = 1
    ∧ ((alookup (PcapAnalyzer.analyzeState
          [PcapAnalyzer.exQA, PcapAnalyzer.exQB]).pending 7).map
        (fun q => q.src_ip)) = some "10.0.0.2" := by
  refine ⟨?_, ?_⟩ <;> decide

/-- C5, amended: `parse_pcap` keys its pending table by the full
(client address, client port, server address, server port, transaction id)
tuple, with the complementary key being the role swap of the request key;
there, two in-flight requests differing in client address or client port
occupy distinct entries and do not collide.  The other two correlators use
weaker keys: `analyze_modbus_transactions` uses the transaction id alone
and `correlate_modbus` uses (tcp stream, transaction id). -/
theorem c5_key_amended (st : PcapToCsv.PState) (f1 f2 : PcapToCsv.Frame)
    (e1 : truthy f1.tid = true) (e2 : f1.hasIp = true) (e3 : f1.l4.isSome = true)
    (e4 : alookup st.pending (PcapToCsv.key_resp f1) = none)
    (g1 : truthy f2.tid = true) (g2 : f2.hasIp = true) (g3 : f2.l4.isSome = true)
    (g4 : alookup (PcapToCsv.convStep st f1).pending (PcapToCsv.key_resp f2) = none)
    (hclient : pyOrD f1.src_ip "" ≠ pyOrD f2.src_ip ""
        ∨ pyOrD f1.src_port "" ≠ pyOrD f2.src_port "") :
    (∀ g : PcapToCsv.Frame, PcapToCsv.key_resp g = PcapToCsv.swapKey (PcapToCsv.key_req g))
    ∧ PcapToCsv.key_req f1 ≠ PcapToCsv.key_req f2
    ∧ alookup (PcapToCsv.convStep (PcapToCsv.convStep st f1) f2).pending
        (PcapToCsv.key_req f2) = some (PcapToCsv.reqEntry f2)
    ∧ alookup (PcapToCsv.convStep (PcapToCsv.convStep st f1) f2).pending
        (PcapToCsv.key_req f1) = some (PcapToCsv.reqEntry f1) := by
  have hne : PcapToCsv.key_req f1 ≠ PcapToCsv.key_req f2 := by
    intro he
    rcases hclient with h | h
    · exact h (congrArg (fun k => k.1) he)
    · exact h (congrArg (fun k => k.2.1) he)
  have s1 := PcapToCsv.convStep_request st f1 e1 e2 e3 e4
  have s2 := PcapToCsv.convStep_request (PcapToCsv.convStep st f1) f2 g1 g2 g3 g4
  refine ⟨fun g => rfl, hne, ?_, ?_⟩
  · rw [s2]
    exact alookup_ainsert_self _ _ _
  · rw [s2]
    show alookup (ainsert (PcapToCsv.convStep st f1).pending
      (PcapToCsv.key_req f2) (PcapToCsv.reqEntry f2)) (PcapToCsv.key_req f1)
        = some (PcapToCsv.reqEntry f1)
    rw [alookup_ainsert_ne _ _ _ _ hne, s1]
    exact alookup_ainsert_self _ _ _

/-- C5, witness: two concrete requests from different clients sharing
tid 7 occupy distinct pending entries in `parse_pcap`. -/
theorem c5_key_witness :
    alookup (PcapToCsv.convStep (PcapToCsv.convStep PcapToCsv.initState PcapToCsv.exF1)
        PcapToCsv.exF5).pending (PcapToCsv.key_req PcapToCsv.exF1)
      = some (PcapToCsv.reqEntry PcapToCsv.exF1) :=
  (c5_key_amended PcapToCsv.initState PcapToCsv.exF1 PcapToCsv.exF5
    (by decide) (by decide) (by decide) (by decide)
    (by decide) (by decide) (by decide) (by decide) (by decide)).2.2.2

/-- C6: a frame whose Modbus protocol identifier field (payload bytes 2..3)
is non-zero yields no Modbus parse result, contributes no transaction
(the correlation step leaves its state unchanged for any such TCP frame),
yet is still counted under the generic TCP protocol statistic and in the
total packet count. -/
theorem c6_nonzero_protocol_id (t : ℚ) (ips ipd : Option String)
    (s d : ℕ) (pl : List ℕ)
    (hproto : 256 * PcapAnalyzer.byteAt pl 2 + PcapAnalyzer.byteAt pl 3 ≠ 0) :
    PcapAnalyzer.parse_modbus_packet pl = none
    ∧ (∀ (st : PcapAnalyzer.ATState) (i : ℕ),
        PcapAnalyzer.analyzeStep st i
          ⟨t, ips, ipd, PcapAnalyzer.Transport.tcp s d pl⟩ = st)
    ∧ (∀ ps : List PcapAnalyzer.SPacket,
        (PcapAnalyzer.protoCounts
            (ps ++ [⟨t, ips, ipd, PcapAnalyzer.Transport.tcp s d pl⟩])).tcp
          = (PcapAnalyzer.protoCounts ps).tcp + 1)
    ∧ (∀ ps : List PcapAnalyzer.SPacket,
        PcapAnalyzer.totalPackets
            (ps ++ [⟨t, ips, ipd, PcapAnalyzer.Transport.tcp s d pl⟩])
          = PcapAnalyzer.totalPackets ps + 1) := by
  have hparse : PcapAnalyzer.parse_modbus_packet pl = none := by
    by_cases h8 : pl.length < 8
    · simp [PcapAnalyzer.parse_modbus_packet, h8]
    · simp [PcapAnalyzer.parse_modbus_packet, h8, hproto]
  refine ⟨hparse, ?_, ?_, ?_⟩
  · intro st i
    simp [PcapAnalyzer.analyzeStep, hparse]
  · intro ps
    simp only [PcapAnalyzer.protoCounts, List.foldl_append, List.foldl_cons,
      List.foldl_nil, PcapAnalyzer.protoStep]
    split <;> rfl
  · intro ps
    simp [PcapAnalyzer.totalPackets]

/-- C6, witness: the concrete Modbus-port frame with protocol id 1 parses
to nothing. -/
theorem c6_nonzero_protocol_id_witness :
    PcapAnalyzer.parse_modbus_packet PcapAnalyzer.exBadPl = none :=
  (c6_nonzero_protocol_id 0 none none 51000 502 PcapAnalyzer.exBadPl (by decide)).1

/-- C8, counterexample: the rendered name for the unknown function code 17
is "Unknown (17)" — with a space before the parenthesis — not the string
"Unknown(17)" the claim states. -/
theorem c8_function_name_counterexample :
    PcapAnalyzer.functionName 17 = "Unknown (17)"
    ∧ "Unknown (17)" ≠ "Unknown(17)" := by
  refine ⟨?_, ?_⟩ <;> decide

/-- C8, amended: the function-code map is exactly the eight listed pairs,
and every other code renders as "Unknown (code)" — with a space between
"Unknown" and the parenthesized numeric code. -/
theorem c8_function_name_amended :
    (PcapAnalyzer.functionName 1 = "Read Coils"
      ∧ PcapAnalyzer.functionName 2 = "Read Discrete Inputs"
      ∧ PcapAnalyzer.functionName 3 = "Read Holding Registers"
      ∧ PcapAnalyzer.functionName 4 = "Read Input Registers"
      ∧ PcapAnalyzer.functionName 5 = "Write Single Coil"
      ∧ PcapAnalyzer.functionName 6 = "Write Single Register"
      ∧ PcapAnalyzer.functionName 15 = "Write Multiple Coils"
      ∧ PcapAnalyzer.functionName 16 = "Write Multiple Registers")
    ∧ (∀ c : ℕ, c ∉ ([1, 2, 3, 4, 5, 6, 15, 16] : List ℕ) →
        PcapAnalyzer.functionName c = "Unknown (" ++ toString c ++ ")") := by
  constructor
  · exact ⟨rfl, rfl, rfl, rfl, rfl, rfl, rfl, rfl⟩
  · intro c hc
    simp only [List.mem_cons, List.not_mem_nil, or_false, not_or] at hc
    obtain ⟨h1, h2, h3, h4, h5, h6, h7, h8⟩ := hc
    simp [PcapAnalyzer.functionName, PcapAnalyzer.function_codes, alookup,
      h1, h2, h3, h4, h5, h6, h7, h8]

/-- C8, witness: the amended rendering at the out-of-map code 99. -/
theorem c8_function_name_witness :
    PcapAnalyzer.functionName 99 = "Unknown (" ++ toString 99 ++ ")" :=
  c8_function_name_amended.2 99 (by decide)

/-- C9: the `correlate_modbus` loop is deterministic — any two runs of the
step relation from the same state over the identical ordered packet
sequence end in the same state, hence emit identical correlated rows and
an identical Modbus summary. -/
theorem c9_deterministic (L : PcapTools.LayerStore) (st : PcapTools.CState)
    (ps : List (PcapTools.PRow × PcapTools.PIdx)) (s1 s2 : PcapTools.CState)
    (h1 : PcapTools.CorrRun L st ps s1) (h2 : PcapTools.CorrRun L st ps s2) :
    s1 = s2
    ∧ PcapTools.finishRows s1 = PcapTools.finishRows s2
    ∧ PcapTools.buildSummary (PcapTools.finishRows s1)
        = PcapTools.buildSummary (PcapTools.finishRows s2) := by
  have he : s1 = s2 := by
    induction h1 generalizing s2 with
    | nil s => cases h2 with | nil => rfl
    | cons hrun ih => cases h2 with | cons hrun2 => exact ih _ hrun2
  subst he
  exact ⟨rfl, rfl, rfl⟩

/-- C9, witness: determinism at a concrete one-packet run. -/
theorem c9_deterministic_witness :
    PcapTools.corrStep [] ⟨[], []⟩ PcapTools.exResp
      = PcapTools.corrStep [] ⟨[], []⟩ PcapTools.exResp :=
  (c9_deterministic [] ⟨[], []⟩ [PcapTools.exResp] _ _
    (PcapTools.CorrRun.cons (PcapTools.CorrRun.nil _))
    (PcapTools.CorrRun.cons (PcapTools.CorrRun.nil _))).1

/-- C10: the protocol histogram categories overlap — a TCP frame with
source or destination port 502 increments both the TCP and the Modbus/TCP
counters, a UDP frame on port 5353 increments both the UDP and the MDNS
counters, and on a concrete one-packet Modbus capture the sum of the
histogram values exceeds the total packet count. -/
theorem c10_overlapping_histogram :
    (∀ (c : PcapAnalyzer.ProtoCount) (p : PcapAnalyzer.SPacket)
        (s d : ℕ) (pl : List ℕ),
      p.transport = PcapAnalyzer.Transport.tcp s d pl → (s = 502 ∨ d = 502) →
        (PcapAnalyzer.protoStep c p).tcp = c.tcp + 1
        ∧ (PcapAnalyzer.protoStep c p).modbusTcp = c.modbusTcp + 1)
    ∧ (∀ (c : PcapAnalyzer.ProtoCount) (p : PcapAnalyzer.SPacket)
        (s d : ℕ) (pl : List ℕ),
      p.transport = PcapAnalyzer.Transport.udp s d pl → (s = 5353 ∨ d = 5353) →
        (PcapAnalyzer.protoStep c p).udp = c.udp + 1
        ∧ (PcapAnalyzer.protoStep c p).mdns = c.mdns + 1)
    ∧ PcapAnalyzer.sumProtoCounts (PcapAnalyzer.protoCounts PcapAnalyzer.exCapture)
        > PcapAnalyzer.totalPackets PcapAnalyzer.exCapture := by
  refine ⟨?_, ?_, ?_⟩
  · intro c p s d pl htr hport
    simp [PcapAnalyzer.protoStep, htr, hport]
  · intro c p s d pl htr hport
    simp [PcapAnalyzer.protoStep, htr, hport]
  · decide

/-- C10, witness: the per-frame double increment at a concrete TCP frame
on port 502. -/
theorem c10_overlapping_histogram_witness :
    (PcapAnalyzer.protoStep ⟨0, 0, 0, 0⟩ PcapAnalyzer.exQA).tcp = 0 + 1
    ∧ (PcapAnalyzer.protoStep ⟨0, 0, 0, 0⟩ PcapAnalyzer.exQA).modbusTcp = 0 + 1 :=
  c10_overlapping_histogram.1 ⟨0, 0, 0, 0⟩ PcapAnalyzer.exQA
    51000 502 PcapAnalyzer.exMbPl rfl (Or.inr rfl)
